import Mathlib

/-
Verification of pkg/github/projects.go (GitHub Projects MCP tools).

Shallow embedding: each Go helper is translated to a pure Lean function.
Network calls are abstracted as explicitly passed outcomes (a probe result,
a page server, a field-listing result, ...); everything downstream of those
outcomes follows the Go control flow statement by statement.
-/

namespace GhProjects

/- Decidable equality for Except, used to evaluate concrete scenarios. -/
instance exceptDecEq {ε α : Type} [DecidableEq ε] [DecidableEq α] :
    DecidableEq (Except ε α)
  | .error e, .error f =>
    if h : e = f then .isTrue (by rw [h])
    else .isFalse (fun c => h (by injection c))
  | .error _, .ok _ => .isFalse (fun c => Except.noConfusion c)
  | .ok _, .error _ => .isFalse (fun c => Except.noConfusion c)
  | .ok a, .ok b =>
    if h : a = b then .isTrue (by rw [h])
    else .isFalse (fun c => h (by injection c))

/- Constants from the top of projects.go. -/

def ProjectUpdateFailedError : String := "failed to update a project item"

def ProjectAddFailedError : String := "failed to add a project item"

def ProjectDeleteFailedError : String := "failed to delete a project item"

def ProjectListFailedError : String := "failed to list project items"

def MaxProjectsPerPage : Nat := 50

/-
detectOwnerType (projects.go lines 1117-1139).
A probe is one `client.Projects.GetUserProject` / `GetOrganizationProject`
round trip: `err` models the returned Go error, `status` the HTTP status of
the response (none when the response object is nil).
-/

structure ProbeResult where
  err : Option String
  status : Option Nat
deriving DecidableEq

/- The Go success check `err == nil && resp.StatusCode == http.StatusOK`. -/
def probeSuccess (p : ProbeResult) : Bool :=
  p.err.isNone && p.status == some 200

def ownerTypeDetectFailureMessage (owner : String) (projectNumber : Int) : String :=
  "could not determine owner type for " ++ owner ++ " with project " ++
    toString projectNumber ++ ": owner is neither a user nor an org with this project"

/-
Returns the Go result together with the trace of probes issued, in order.
The Go function always issues the user probe; the org probe is issued iff
the user probe was not a success (any error, transport-level included,
falls through to the org probe rather than short-circuiting).
-/
def detectOwnerType (owner : String) (projectNumber : Int)
    (userProbe orgProbe : ProbeResult) : Except String String × List String :=
  if probeSuccess userProbe then
    (.ok "user", ["user"])
  else if probeSuccess orgProbe then
    (.ok "org", ["user", "org"])
  else
    (.error (ownerTypeDetectFailureMessage owner projectNumber), ["user", "org"])

/-
Project items as read back from the list endpoint
(github.ProjectV2Item with nested optional content), modelling exactly the
pointer fields findProjectItemIDByIssue dereferences (lines 1390-1409).
-/

structure RepoOwnerRef where
  login : Option String
deriving DecidableEq

structure RepoRef where
  name : Option String
  owner : Option RepoOwnerRef
deriving DecidableEq

structure IssueRef where
  number : Option Int
  repository : Option RepoRef
deriving DecidableEq

structure ItemContent where
  issue : Option IssueRef
deriving DecidableEq

structure ProjectV2Item where
  id : Option Int
  content : Option ItemContent
deriving DecidableEq

/-
The inner `for _, item := range items` loop of findProjectItemIDByIssue:
returns the ID of the first item surviving every `continue`.
-/
def findInItems (items : List ProjectV2Item) (repoOwner repoName : String)
    (issueNumber : Int) : Option Int :=
  match items with
  | [] => none
  | item :: rest =>
    match item.id with
    | none => findInItems rest repoOwner repoName issueNumber
    | some itemID =>
      match item.content with
      | none => findInItems rest repoOwner repoName issueNumber
      | some content =>
        match content.issue with
        | none => findInItems rest repoOwner repoName issueNumber
        | some issue =>
          match issue.number with
          | none => findInItems rest repoOwner repoName issueNumber
          | some num =>
            if num ≠ issueNumber then
              findInItems rest repoOwner repoName issueNumber
            else
              match issue.repository with
              | none => some itemID
              | some repo =>
                if (match repo.name with
                    | some nm => nm != repoName
                    | none => false) then
                  findInItems rest repoOwner repoName issueNumber
                else if (match repo.owner with
                    | some o =>
                      (match o.login with
                       | some l => l != repoOwner
                       | none => false)
                    | none => false) then
                  findInItems rest repoOwner repoName issueNumber
                else
                  some itemID

/-
One page returned by ListOrganizationProjectItems / ListUserProjectItems:
the items plus the response's forward cursor (`resp.After`).
-/
structure ItemsPage where
  items : List ProjectV2Item
  after : String
deriving DecidableEq

inductive ListItemsOutcome where
  | failure (e : String)
  | success (page : ItemsPage)
deriving DecidableEq

inductive FindOutcome where
  | found (id : Int)
  | listError (e : String)
  | notFound (msg : String)
deriving DecidableEq

def notFoundMessage (repoOwner repoName : String) (issueNumber : Int) : String :=
  "project item for issue " ++ repoOwner ++ "/" ++ repoName ++ "#" ++
    toString issueNumber ++ " not found (list may be paginated)"

/- The `perPage := 50` request size of findProjectItemIDByIssue (line 1371). -/
def findProjectItemsPerPage : Nat := 50

/-
The `for page := 0; page < 5; page++` loop of findProjectItemIDByIssue
(lines 1377-1415). `server` maps the request cursor (`opts.After`, none on
the first call) to the call's outcome; the returned list is the trace of
requests issued, so its length is the number of list calls made.
-/
def findLoop (server : Option String → ListItemsOutcome)
    (repoOwner repoName : String) (issueNumber : Int) :
    Nat → Option String → List (Option String) → FindOutcome × List (Option String)
  | 0, _, requests =>
    (.notFound (notFoundMessage repoOwner repoName issueNumber), requests)
  | pagesLeft + 1, cursor, requests =>
    match server cursor with
    | .failure e => (.listError e, requests ++ [cursor])
    | .success page =>
      match findInItems page.items repoOwner repoName issueNumber with
      | some i => (.found i, requests ++ [cursor])
      | none =>
        if page.after = "" then
          (.notFound (notFoundMessage repoOwner repoName issueNumber), requests ++ [cursor])
        else
          findLoop server repoOwner repoName issueNumber pagesLeft
            (some page.after) (requests ++ [cursor])

def findProjectItemIDByIssue (server : Option String → ListItemsOutcome)
    (repoOwner repoName : String) (issueNumber : Int) :
    FindOutcome × List (Option String) :=
  findLoop server repoOwner repoName issueNumber 5 none []

/-
resolveSingleSelectOptionByName (projects.go lines 1446-1486).
github.ProjectV2Field with pointer fields and a slice of option pointers;
`name : Option (Option String)` models `opt.Name` (pointer to a struct)
whose `Raw` is itself a pointer to string.
-/

structure ProjectV2FieldOption where
  id : Option String
  name : Option (Option String)
deriving DecidableEq

structure ProjectV2Field where
  id : Option Int
  name : Option String
  options : List (Option ProjectV2FieldOption)
deriving DecidableEq

/- The `PerPage: ptr(100)` request size (line 1447). -/
def resolveFieldsPerPage : Nat := 100

def fieldNotFoundMessage (fieldName : String) : String :=
  "field \x22" ++ fieldName ++ "\x22 not found in project"

def optionNotFoundMessage (optionName fieldName : String) : String :=
  "option \x22" ++ optionName ++ "\x22 not found in field \x22" ++ fieldName ++ "\x22"

/- The inner `for _, opt := range f.Options` loop. -/
def findOptionInField (opts : List (Option ProjectV2FieldOption))
    (optionName : String) : Option String :=
  match opts with
  | [] => none
  | o :: rest =>
    match o with
    | none => findOptionInField rest optionName
    | some opt =>
      match opt.id with
      | none => findOptionInField rest optionName
      | some oid =>
        let optName :=
          match opt.name with
          | some (some raw) => raw
          | some none => ""
          | none => ""
        if optName = optionName then some oid
        else findOptionInField rest optionName

/- The outer `for _, f := range fields` loop. -/
def resolveInFields (fields : List ProjectV2Field)
    (fieldName optionName : String) : Except String (String × Int) :=
  match fields with
  | [] => .error (fieldNotFoundMessage fieldName)
  | f :: rest =>
    let name := f.name.getD ""
    if name ≠ fieldName then resolveInFields rest fieldName optionName
    else
      match f.id with
      | none => resolveInFields rest fieldName optionName
      | some fid =>
        match findOptionInField f.options optionName with
        | some oid => .ok (oid, fid)
        | none => .error (optionNotFoundMessage optionName fieldName)

/- `fieldsResult` is the outcome of the ListProjectFields call. -/
def resolveSingleSelectOptionByName (fieldsResult : Except String (List ProjectV2Field))
    (fieldName optionName : String) : Except String (String × Int) :=
  match fieldsResult with
  | .error e => .error e
  | .ok fields => resolveInFields fields fieldName optionName

/-
setPriorityAndSize (projects.go lines 1419-1444).

The two network dependencies are resolveSingleSelectOptionByName and
updateProjectItem (called on the itemID with {id: fieldID, value:
optionID}), abstracted as an environment.

updateProjectItem (lines 810-847) returns (toolResult, _, goErr), and its
Go error is non-nil ONLY for a body-read failure (after a non-success
status) or a response-marshal failure; an upstream transport error or a
non-success status produces a tool-ERROR RESULT together with a NIL Go
error. setPriorityAndSize discards the tool result via `_, _, err` and
tests only the Go error, so only the goError outcomes abort it.
-/

inductive UpdateItemCall where
  /- HTTP 200, updated item marshalled: tool success result, Go error nil. -/
  | ok
  /- Validation failure, transport error or non-success status: a
  tool-error result carrying msg, Go error nil. -/
  | toolErrorResult (msg : String)
  /- Body-read or marshal failure inside updateProjectItem: non-nil Go error. -/
  | goError (e : String)
deriving DecidableEq

structure FieldUpdateEnv where
  resolveOption : String → String → Except String (String × Int)
  updateItem : Int → Int → String → UpdateItemCall

/-
The Size block of setPriorityAndSize, factored out with the updates list
and the trace of issued update calls accumulated by the Priority block.
The second component of the result is that trace — each updateProjectItem
call issued, as ((fieldID, optionID), outcome), in call order.
-/
def sizeStep (env : FieldUpdateEnv) (itemID : Int) (size : String)
    (updates : List String) (trace : List ((Int × String) × UpdateItemCall)) :
    Except String (List String) × List ((Int × String) × UpdateItemCall) :=
  if size = "" then (.ok updates, trace)
  else
    match env.resolveOption "Size" size with
    | .error e => (.error ("Size: " ++ e), trace)
    | .ok (optionID, fieldID) =>
      match env.updateItem itemID fieldID optionID with
      | .goError e =>
        (.error ("set Size: " ++ e), trace ++ [((fieldID, optionID), .goError e)])
      | call =>
        (.ok (updates ++ ["Size=" ++ size]), trace ++ [((fieldID, optionID), call)])

def setPriorityAndSize (env : FieldUpdateEnv) (itemID : Int)
    (priority size : String) :
    Except String (List String) × List ((Int × String) × UpdateItemCall) :=
  if priority = "" then sizeStep env itemID size [] []
  else
    match env.resolveOption "Priority" priority with
    | .error e => (.error ("Priority: " ++ e), [])
    | .ok (optionID, fieldID) =>
      match env.updateItem itemID fieldID optionID with
      | .goError e =>
        (.error ("set Priority: " ++ e), [((fieldID, optionID), .goError e)])
      | call =>
        sizeStep env itemID size ["Priority=" ++ priority] [((fieldID, optionID), call)]

/-
assignIssueToOrgProjectWithFields (projects.go lines 1338-1368).
`addResult` is the mcp.CallToolResult returned by addProjectItem (none
models a nil result); `findResult` the outcome of findProjectItemIDByIssue.
-/

inductive ToolContent where
  | textContent (text : String)
  | otherContent
deriving DecidableEq

structure ToolResult where
  content : List ToolContent
deriving DecidableEq

def assignIssueToOrgProjectWithFields (addResult : Option ToolResult)
    (findResult : Except String Int) (env : FieldUpdateEnv)
    (org : String) (projectNumber : Int) (itemOwner itemRepo : String)
    (issueNumber : Int) (priority size : String) :
    Except String (Int × String × List String) :=
  match addResult with
  | none => .error "add issue to project: no result"
  | some r =>
    match r.content with
    | [] => .error "add issue to project: no result"
    | c :: _ =>
      match c with
      | .otherContent => .error "add issue to project: unexpected result type"
      | .textContent addText =>
        if addText.length > 0 && addText.front != '\x7b' then
          .error ("add issue to project: " ++ addText)
        else
          match findResult with
          | .error e => .error ("find project item id: " ++ e)
          | .ok numericID =>
            let message := "Added issue " ++ itemOwner ++ "/" ++ itemRepo ++ "#" ++
              toString issueNumber ++ " to project " ++ org ++ "/" ++ toString projectNumber
            if priority != "" || size != "" then
              match (setPriorityAndSize env numericID priority size).1 with
              | .error e => .error e
              | .ok updates => .ok (numericID, message, updates)
            else
              .ok (numericID, message, [])

/-
listProjectsFromBothOwnerTypes (projects.go lines 535-583).
One scope's list call yields a Go error plus an optional response carrying
the HTTP status and the decoded projects. convertToMinimalProject (defined
elsewhere in the repo) is modelled as the identity on the minimal
projection, with the OwnerType tag then stamped per scope as in the source.
Pagination cursors of the two responses are not modelled here (no claim
touches the pageInfo of the dual-scope path).
-/

structure MinimalProject where
  title : String
  ownerType : String
deriving DecidableEq

structure ScopeListOutcome where
  err : Option String
  resp : Option (Nat × List MinimalProject)
deriving DecidableEq

/- `err == nil && resp.StatusCode == http.StatusOK` (also false when resp is nil). -/
def scopeOK (s : ScopeListOutcome) : Bool :=
  s.err.isNone &&
    (match s.resp with
     | some (st, _) => st == 200
     | none => false)

def scopeProjects (s : ScopeListOutcome) : List MinimalProject :=
  match s.resp with
  | some (_, ps) => ps
  | none => []

def bothScopesNote : String :=
  "Results include both user and org projects. Each project includes \x27owner_type\x27 field. Pagination is limited when owner_type is not specified - specify \x27owner_type\x27 for full pagination support."

def bothScopesFailureMessage (owner : String) : String :=
  "failed to list projects for owner \x27" ++ owner ++ "\x27: not found as user or organization"

def listProjectsFromBothOwnerTypes (owner : String)
    (userOutcome orgOutcome : ScopeListOutcome) :
    Except String (List MinimalProject × String) :=
  let userPart :=
    if scopeOK userOutcome then
      (scopeProjects userOutcome).map (fun p => { p with ownerType := "user" })
    else []
  let orgPart :=
    if scopeOK orgOutcome then
      (scopeProjects orgOutcome).map (fun p => { p with ownerType := "org" })
    else []
  if !scopeOK userOutcome && !scopeOK orgOutcome then
    .error (bothScopesFailureMessage owner)
  else
    .ok (userPart ++ orgPart, bothScopesNote)

/-
deleteProjectItem (projects.go lines 849-876).
The REST call either fails at transport level or yields a response with a
status and a body; success requires exactly http.StatusNoContent (204).
-/

inductive RestDeleteOutcome where
  | transportError (e : String)
  | response (status : Nat) (body : String)
deriving DecidableEq

inductive ToolDeleteResult where
  | apiError (msg : String)
  | statusError (msg : String) (status : Nat) (body : String)
  | success (text : String)
deriving DecidableEq

def deleteProjectItem : RestDeleteOutcome → ToolDeleteResult
  | .transportError e => .apiError (ProjectDeleteFailedError ++ ": " ++ e)
  | .response status body =>
    if status ≠ 204 then .statusError ProjectDeleteFailedError status body
    else .success "project item successfully deleted"

def isDeleteSuccess : ToolDeleteResult → Bool
  | .success _ => true
  | .apiError _ => false
  | .statusError _ _ _ => false

/-
pageInfo / buildPageInfo (projects.go lines 966-971, 1023-1030).
`GHResponseCursors` carries `resp.After` / `resp.Before`. serializePageInfo
models the encoding/json output: nextCursor and prevCursor carry
`omitempty`, so an empty cursor string is dropped from the serialization.
-/

structure GHResponseCursors where
  after : String
  before : String
deriving DecidableEq

structure pageInfo where
  hasNextPage : Bool
  hasPreviousPage : Bool
  nextCursor : String
  prevCursor : String
deriving DecidableEq

def buildPageInfo (resp : GHResponseCursors) : pageInfo :=
  { hasNextPage := resp.after != ""
    hasPreviousPage := resp.before != ""
    nextCursor := resp.after
    prevCursor := resp.before }

def serializePageInfo (p : pageInfo) : List (String × String) :=
  [("hasNextPage", toString p.hasNextPage), ("hasPreviousPage", toString p.hasPreviousPage)]
    ++ (if p.nextCursor = "" then [] else [("nextCursor", p.nextCursor)])
    ++ (if p.prevCursor = "" then [] else [("prevCursor", p.prevCursor)])

/-
buildUpdateProjectItem / validateAndConvertToInt64 (projects.go
lines 973-1021) plus the handler's `updated_field` object check (lines
433-440). JSON-decoded Go values: numbers are float64, modelled as
rationals (integral iff the denominator is 1, matching the
`float64(int64(v)) != v` round-trip check); arrays and nested objects are
never inspected by this code and are collapsed into `composite`.
-/

inductive GoValue where
  | goNull
  | num (q : Rat)
  | str (s : String)
  | boolean (b : Bool)
  | composite
deriving DecidableEq

def goTypeName : GoValue → String
  | .goNull => "<nil>"
  | .num _ => "float64"
  | .str _ => "string"
  | .boolean _ => "bool"
  | .composite => "interface \x7b\x7d"

/- The int64 bounds: -(2^63) and 2^63 - 1. -/
def int64MinValue : Int := -9223372036854775808

def int64MaxValue : Int := 9223372036854775807

/-
The float64 branch accepts v exactly when `float64(int64(v)) == v`: this
holds iff v has no fractional part AND lies within the int64 range (an
out-of-range conversion does not round-trip on Go's supported targets; the
boundary -2^63 is itself exactly representable and accepted). So the
acceptance condition is: integral (den = 1) and int64MinValue ≤ v ≤
int64MaxValue.
-/
def validateAndConvertToInt64 : GoValue → Except String Int
  | .num q =>
    if q.den = 1 ∧ int64MinValue ≤ q.num ∧ q.num ≤ int64MaxValue then .ok q.num
    else .error ("value must be a valid integer (got " ++ toString q ++ ")")
  | v => .error ("value must be a number (got " ++ goTypeName v ++ ")")

structure UpdateProjectV2Field where
  id : Int
  value : GoValue
deriving DecidableEq

structure UpdateProjectItemOptions where
  fields : List UpdateProjectV2Field
deriving DecidableEq

def buildUpdateProjectItem (input : List (String × GoValue)) :
    Except String UpdateProjectItemOptions :=
  match List.lookup "id" input with
  | none => .error "updated_field.id is required"
  | some idField =>
    match validateAndConvertToInt64 idField with
    | .error e => .error ("updated_field.id: " ++ e)
    | .ok fieldID =>
      match List.lookup "value" input with
      | none => .error "updated_field.value is required"
      | some valueField => .ok ⟨[⟨fieldID, valueField⟩]⟩

/-
The raw `updated_field` argument: a JSON object (a key/value map, with a
present-but-null value stored as goNull under its key) or any non-object
value, which the handler rejects with "updated_field must be an object"
before buildUpdateProjectItem runs.
-/
inductive GoArg where
  | objArg (fields : List (String × GoValue))
  | nonObject
deriving DecidableEq

def updateFieldPayload : GoArg → Except String UpdateProjectItemOptions
  | .objArg fields => buildUpdateProjectItem fields
  | .nonObject => .error "updated_field must be an object"

/-
Concrete scenarios used by the claim theorems below.
-/

/- An item whose issue number (999) never matches the targets used below. -/
def sampleOtherItem : ProjectV2Item :=
  { id := some 1
    content := some { issue := some { number := some 999, repository := none } } }

/- The freshly added issue owner/repo#17, with full repository metadata. -/
def sampleTargetRepo : RepoRef :=
  { name := some "repo", owner := some { login := some "owner" } }

def sampleTargetItem : ProjectV2Item :=
  { id := some 4242
    content := some { issue := some { number := some 17, repository := some sampleTargetRepo } } }

/- Target issue on page 2 (the 50 items of page 1 do not match). -/
def sampleServerFound : Option String → ListItemsOutcome
  | none => .success ⟨List.replicate 50 sampleOtherItem, "cursor1"⟩
  | some c =>
    if c = "cursor1" then
      .success ⟨List.replicate 49 sampleOtherItem ++ [sampleTargetItem], "cursor2"⟩
    else .failure "unexpected cursor"

/- Five full pages (250 items), none matching, every page with a forward cursor. -/
def sampleServerAbsent : Option String → ListItemsOutcome
  | none => .success ⟨List.replicate 50 sampleOtherItem, "c1"⟩
  | some c =>
    if c = "c1" then .success ⟨List.replicate 50 sampleOtherItem, "c2"⟩
    else if c = "c2" then .success ⟨List.replicate 50 sampleOtherItem, "c3"⟩
    else if c = "c3" then .success ⟨List.replicate 50 sampleOtherItem, "c4"⟩
    else if c = "c4" then .success ⟨List.replicate 50 sampleOtherItem, "c5"⟩
    else .failure "unexpected cursor"

/- A single short page without a forward cursor. -/
def sampleServerNoCursor : Option String → ListItemsOutcome
  | none => .success ⟨List.replicate 3 sampleOtherItem, ""⟩
  | some _ => .failure "unexpected cursor"

/- The field set of the FieldOptionResolver example. -/
def sampleFields : List ProjectV2Field :=
  [{ id := some 42
     name := some "Priority"
     options :=
       [some { id := some "opt1", name := some (some "High") },
        some { id := some "opt2", name := some (some "Low") }] }]

/-
Environment for the assign-and-tag workflow: the project has a Priority
field with option High, no Size field, and every update call returns 200.
-/
def sampleFieldEnv : FieldUpdateEnv :=
  { resolveOption := fun fieldName optionName =>
      if fieldName = "Priority" ∧ optionName = "High" then .ok ("opt1", 42)
      else .error (fieldNotFoundMessage fieldName)
    updateItem := fun _ _ _ => .ok }

/-
Same project, but every update call fails upstream with a non-success
status: updateProjectItem returns a tool-error result and a NIL Go error.
-/
def sampleFailingUpdateEnv : FieldUpdateEnv :=
  { resolveOption := fun fieldName optionName =>
      if fieldName = "Priority" ∧ optionName = "High" then .ok ("opt1", 42)
      else .error (fieldNotFoundMessage fieldName)
    updateItem := fun _ _ _ =>
      .toolErrorResult (ProjectUpdateFailedError ++ ": 404 Not Found") }

/- A well-formed addProjectItem result: one text content starting with a brace. -/
def sampleAddResult : Option ToolResult :=
  some ⟨[.textContent "\x7b\x22id\x22:\x22PVTI_node\x22\x7d"]⟩

/-
Theorems.
-/

/- Each findLoop iteration issues one list call; the loop counter starts at 5. -/
theorem findLoop_calls_le (server : Option String → ListItemsOutcome)
    (repoOwner repoName : String) (issueNumber : Int) :
    ∀ (pagesLeft : Nat) (cursor : Option String) (requests : List (Option String)),
      (findLoop server repoOwner repoName issueNumber pagesLeft cursor requests).2.length ≤
        requests.length + pagesLeft := by
  intro pagesLeft
  induction pagesLeft with
  | zero =>
    intro cursor requests
    simp [findLoop]
  | succ pl ih =>
    intro cursor requests
    simp only [findLoop]
    cases h : server cursor with
    | failure e => simp
    | success page =>
      cases hf : findInItems page.items repoOwner repoName issueNumber with
      | some i =>
        simp [hf]
      | none =>
        by_cases ha : page.after = ""
        · simp [hf, ha]
        · simp only [hf, if_neg ha]
          calc (findLoop server repoOwner repoName issueNumber pl (some page.after)
                  (requests ++ [cursor])).2.length
              ≤ (requests ++ [cursor]).length + pl := ih _ _
            _ = requests.length + (pl + 1) := by simp; omega

/--
C1: detectOwnerType probes user scope first and org scope second: a
successful user-scope get-project probe yields "user"; otherwise — a
transport-level error on the first probe included, it never short-circuits —
the org probe decides, yielding "org" on success; when both probes fail or
return non-success the result is an error naming the owner and the project
number. For a pair existing only under org scope, the result is "org" after
exactly the two probes user-then-org.
-/
theorem detectOwnerType_probe_order :
    (∀ owner n orgProbe,
        detectOwnerType owner n ⟨none, some 200⟩ orgProbe = (.ok "user", ["user"]))
    ∧ (∀ owner n userProbe orgProbe,
        probeSuccess userProbe = false → probeSuccess orgProbe = true →
        detectOwnerType owner n userProbe orgProbe = (.ok "org", ["user", "org"]))
    ∧ (∀ owner n e st orgProbe, probeSuccess orgProbe = true →
        detectOwnerType owner n ⟨some e, st⟩ orgProbe = (.ok "org", ["user", "org"]))
    ∧ (∀ owner n userProbe orgProbe,
        probeSuccess userProbe = false → probeSuccess orgProbe = false →
        detectOwnerType owner n userProbe orgProbe =
          (.error (ownerTypeDetectFailureMessage owner n), ["user", "org"]))
    ∧ (∀ owner n, ownerTypeDetectFailureMessage owner n =
        "could not determine owner type for " ++ owner ++ " with project " ++
          toString n ++ ": owner is neither a user nor an org with this project") := by
  refine ⟨fun owner n orgProbe => rfl, ?_, ?_, ?_, fun owner n => rfl⟩
  · intro owner n userProbe orgProbe hu ho
    simp [detectOwnerType, hu, ho]
  · intro owner n e st orgProbe ho
    have hu : probeSuccess ⟨some e, st⟩ = false := rfl
    simp [detectOwnerType, hu, ho]
  · intro owner n userProbe orgProbe hu ho
    simp [detectOwnerType, hu, ho]

theorem detectOwnerType_probe_order_witness :
    detectOwnerType "octo" 7 ⟨some "404 Not Found", some 404⟩ ⟨none, some 200⟩ =
      (.ok "org", ["user", "org"]) :=
  detectOwnerType_probe_order.2.1 "octo" 7 ⟨some "404 Not Found", some 404⟩
    ⟨none, some 200⟩ (by decide) (by decide)

/--
C2: findProjectItemIDByIssue requests pages of 50 items and issues at most
5 list calls. A matching item on page 2 yields its numeric ID after two
calls; no match among all 250 items of five cursor-linked pages yields the
"not found (list may be paginated)" error after exactly 5 calls, never a
6th; a page without a forward cursor stops the scan immediately.
-/
theorem findProjectItemIDByIssue_bounded_scan :
    findProjectItemsPerPage = 50
    ∧ (∀ server repoOwner repoName issueNumber,
        (findProjectItemIDByIssue server repoOwner repoName issueNumber).2.length ≤ 5)
    ∧ findProjectItemIDByIssue sampleServerFound "owner" "repo" 17 =
        (.found 4242, [none, some "cursor1"])
    ∧ findProjectItemIDByIssue sampleServerAbsent "owner" "repo" 17 =
        (.notFound (notFoundMessage "owner" "repo" 17),
          [none, some "c1", some "c2", some "c3", some "c4"])
    ∧ findProjectItemIDByIssue sampleServerNoCursor "owner" "repo" 17 =
        (.notFound (notFoundMessage "owner" "repo" 17), [none]) := by
  refine ⟨rfl, ?_, by decide, by decide, by decide⟩
  intro server repoOwner repoName issueNumber
  simpa using findLoop_calls_le server repoOwner repoName issueNumber 5 none []

/--
C7: deleteProjectItem succeeds only when the upstream status is exactly 204
(No Content); any other status — a generically successful 200 included —
yields a failure surfacing the upstream body, and a transport error yields
a failure as well.
-/
theorem deleteProjectItem_no_content_only :
    (∀ status body,
        isDeleteSuccess (deleteProjectItem (.response status body)) = true ↔ status = 204)
    ∧ deleteProjectItem (.response 200 "upstream body") =
        .statusError ProjectDeleteFailedError 200 "upstream body"
    ∧ (∀ e, deleteProjectItem (.transportError e) =
        .apiError (ProjectDeleteFailedError ++ ": " ++ e))
    ∧ (∀ e, isDeleteSuccess (deleteProjectItem (.transportError e)) = false)
    ∧ (∀ body, deleteProjectItem (.response 204 body) =
        .success "project item successfully deleted") := by
  refine ⟨?_, by decide, fun e => rfl, fun e => rfl, fun body => rfl⟩
  intro status body
  by_cases h : status = 204
  · simp [deleteProjectItem, isDeleteSuccess, h]
  · simp [deleteProjectItem, isDeleteSuccess, h]

/--
C10: the repository check of findProjectItemIDByIssue is enforced only when
repository metadata is present: an item whose issue number equals the
target is accepted — its numeric ID returned — when the repository is
absent, when the repository carries neither name nor owner, and when the
owner carries no login, so matching can succeed on the issue number alone.
-/
theorem findInItems_repo_metadata_optional :
    (∀ (i n : Int) repoOwner repoName,
        findInItems [⟨some i, some ⟨some ⟨some n, none⟩⟩⟩] repoOwner repoName n = some i)
    ∧ (∀ (i n : Int) repoOwner repoName,
        findInItems [⟨some i, some ⟨some ⟨some n, some ⟨none, none⟩⟩⟩⟩] repoOwner repoName n
          = some i)
    ∧ (∀ (i n : Int) repoOwner repoName,
        findInItems [⟨some i, some ⟨some ⟨some n, some ⟨none, some ⟨none⟩⟩⟩⟩⟩]
          repoOwner repoName n = some i) := by
  refine ⟨?_, ?_, ?_⟩ <;> intro i n repoOwner repoName <;> simp [findInItems]

/--
C3 (amended): in the assign-and-tag workflow, field updates are attempted
in order Priority then Size, each only when its argument is non-empty. A
failure resolving a field's single-select option aborts the workflow with
that step's specific error ("Priority: ..." / "Size: ...") and the
remaining updates are not attempted; an update call aborts with
"set Priority: ..." / "set Size: ..." only when updateProjectItem returns a
non-nil Go error (body-read or marshal failure) — an upstream transport
error or non-success status comes back as a tool-error result with a nil
Go error, which neither aborts the workflow nor prevents the field from
being reported as applied. Effects applied before an aborting failure are
not rolled back; the aborting failure names the failing step but does not
state that earlier effects persist (the updates list is discarded on
failure). assignIssueToOrgProjectWithFields propagates the step error
unchanged.
-/
theorem setPriorityAndSize_order_and_abort :
    (∀ env itemID priority size e, priority ≠ "" →
        env.resolveOption "Priority" priority = .error e →
        setPriorityAndSize env itemID priority size = (.error ("Priority: " ++ e), []))
    ∧ (∀ env itemID priority size e pOpt pField, priority ≠ "" →
        env.resolveOption "Priority" priority = .ok (pOpt, pField) →
        env.updateItem itemID pField pOpt = .goError e →
        setPriorityAndSize env itemID priority size =
          (.error ("set Priority: " ++ e), [((pField, pOpt), .goError e)]))
    ∧ (∀ env itemID priority size msg pOpt pField, priority ≠ "" →
        env.resolveOption "Priority" priority = .ok (pOpt, pField) →
        env.updateItem itemID pField pOpt = .toolErrorResult msg →
        setPriorityAndSize env itemID priority size =
          sizeStep env itemID size ["Priority=" ++ priority]
            [((pField, pOpt), .toolErrorResult msg)])
    ∧ (∀ env itemID priority size e pOpt pField, priority ≠ "" → size ≠ "" →
        env.resolveOption "Priority" priority = .ok (pOpt, pField) →
        env.updateItem itemID pField pOpt = .ok →
        env.resolveOption "Size" size = .error e →
        setPriorityAndSize env itemID priority size =
          (.error ("Size: " ++ e), [((pField, pOpt), .ok)]))
    ∧ (∀ env itemID priority size e pOpt pField sOpt sField, priority ≠ "" → size ≠ "" →
        env.resolveOption "Priority" priority = .ok (pOpt, pField) →
        env.updateItem itemID pField pOpt = .ok →
        env.resolveOption "Size" size = .ok (sOpt, sField) →
        env.updateItem itemID sField sOpt = .goError e →
        setPriorityAndSize env itemID priority size =
          (.error ("set Size: " ++ e),
            [((pField, pOpt), .ok), ((sField, sOpt), .goError e)]))
    ∧ (∀ env itemID priority size pOpt pField sOpt sField, priority ≠ "" → size ≠ "" →
        env.resolveOption "Priority" priority = .ok (pOpt, pField) →
        env.updateItem itemID pField pOpt = .ok →
        env.resolveOption "Size" size = .ok (sOpt, sField) →
        env.updateItem itemID sField sOpt = .ok →
        setPriorityAndSize env itemID priority size =
          (.ok ["Priority=" ++ priority, "Size=" ++ size],
            [((pField, pOpt), .ok), ((sField, sOpt), .ok)]))
    ∧ (∀ env numericID priority size e org projectNumber itemOwner itemRepo issueNumber,
        (priority != "" || size != "") = true →
        (setPriorityAndSize env numericID priority size).1 = .error e →
        assignIssueToOrgProjectWithFields sampleAddResult (.ok numericID) env org
          projectNumber itemOwner itemRepo issueNumber priority size = .error e) := by
  refine ⟨?_, ?_, ?_, ?_, ?_, ?_, ?_⟩
  · intro env itemID priority size e hp hres
    simp [setPriorityAndSize, hp, hres]
  · intro env itemID priority size e pOpt pField hp hres hupd
    simp [setPriorityAndSize, hp, hres, hupd]
  · intro env itemID priority size msg pOpt pField hp hres hupd
    simp [setPriorityAndSize, hp, hres, hupd]
  · intro env itemID priority size e pOpt pField hp hs hres hupd hsres
    simp [setPriorityAndSize, sizeStep, hp, hs, hres, hupd, hsres]
  · intro env itemID priority size e pOpt pField sOpt sField hp hs hres hupd hsres hsupd
    simp [setPriorityAndSize, sizeStep, hp, hs, hres, hupd, hsres, hsupd]
  · intro env itemID priority size pOpt pField sOpt sField hp hs hres hupd hsres hsupd
    simp [setPriorityAndSize, sizeStep, hp, hs, hres, hupd, hsres, hsupd]
  · intro env numericID priority size e org projectNumber itemOwner itemRepo issueNumber hne herr
    simp [assignIssueToOrgProjectWithFields, sampleAddResult, hne, herr]
    intro _ hfront
    exact absurd (by decide) hfront

theorem setPriorityAndSize_order_and_abort_witness :
    setPriorityAndSize sampleFieldEnv 7 "High" "Huge" =
      (.error ("Size: " ++ fieldNotFoundMessage "Size"), [((42, "opt1"), .ok)]) :=
  setPriorityAndSize_order_and_abort.2.2.2.1 sampleFieldEnv 7 "High" "Huge"
    (fieldNotFoundMessage "Size") "opt1" 42 (by decide) (by decide) (by decide)
    (by decide) (by decide)

/--
C3 counterexample. First conjunct: with every update call failing upstream
(non-success status — updateProjectItem returns a tool-error result and a
NIL Go error), the run (priority := "High", size := "") does NOT abort: the
workflow succeeds and reports "Priority=High" as applied even though the
one update call issued failed — refuting "if resolving or applying one of
them fails, the workflow aborts with that specific error". Remaining
conjuncts: the run (priority := "High", size := "Huge") applies the
Priority update (call returns 200) and then fails resolving Size, while
the run (priority := "", size := "Huge") fails identically with no prior
effect — both produce the exact same failure value, so the failure cannot
and does not state that earlier effects persist; it only names the failing
step.
-/
theorem setPriorityAndSize_error_omits_persisted_effects :
    setPriorityAndSize sampleFailingUpdateEnv 7 "High" "" =
        (.ok ["Priority=High"],
          [((42, "opt1"), .toolErrorResult (ProjectUpdateFailedError ++ ": 404 Not Found"))])
    ∧ (setPriorityAndSize sampleFieldEnv 7 "High" "Huge").1 =
        (setPriorityAndSize sampleFieldEnv 7 "" "Huge").1
    ∧ (setPriorityAndSize sampleFieldEnv 7 "High" "Huge").1 =
        .error ("Size: field \x22Size\x22 not found in project")
    ∧ (setPriorityAndSize sampleFieldEnv 7 "High" "Huge").2 = [((42, "opt1"), .ok)]
    ∧ (setPriorityAndSize sampleFieldEnv 7 "" "Huge").2 = [] :=
  ⟨by decide, by decide, by decide, by decide, by decide⟩

/--
C4: resolveSingleSelectOptionByName lists fields with page size 100,
exact-matches the field name and then the option name inside the matched
field. With the field set [{name: Priority, id: 42, options: High → opt1,
Low → opt2}]: resolving (Priority, High) yields (opt1, 42); (Priority,
Medium) fails with the option-not-found error naming option and field;
(Status, High) fails with the field-not-found error naming the field, which
is the result whenever no listed field name matches.
-/
theorem resolveSingleSelectOptionByName_exact_match :
    resolveFieldsPerPage = 100
    ∧ resolveSingleSelectOptionByName (.ok sampleFields) "Priority" "High" =
        .ok ("opt1", 42)
    ∧ resolveSingleSelectOptionByName (.ok sampleFields) "Priority" "Medium" =
        .error ("option \x22Medium\x22 not found in field \x22Priority\x22")
    ∧ resolveSingleSelectOptionByName (.ok sampleFields) "Status" "High" =
        .error ("field \x22Status\x22 not found in project")
    ∧ (∀ fields fieldName optionName,
        (∀ f ∈ fields, f.name.getD "" ≠ fieldName) →
        resolveInFields fields fieldName optionName =
          .error (fieldNotFoundMessage fieldName)) := by
  refine ⟨rfl, by decide, by decide, by decide, ?_⟩
  intro fields fieldName optionName h
  induction fields with
  | nil => rfl
  | cons f rest ih =>
    have hf : f.name.getD "" ≠ fieldName := h f (by simp)
    simp only [resolveInFields, if_pos hf]
    exact ih (fun g hg => h g (by simp [hg]))

theorem resolveSingleSelectOptionByName_exact_match_witness :
    resolveInFields [] "Status" "High" = .error (fieldNotFoundMessage "Status") :=
  resolveSingleSelectOptionByName_exact_match.2.2.2.2 [] "Status" "High" (by simp)

/--
C5: with unspecified owner kind, listProjectsFromBothOwnerTypes fails only
when both the user-scoped and the org-scoped calls fail, with a combined
not-found error naming the owner; when exactly one scope succeeds, the
other scope's failure is absorbed and the result holds only the successful
scope's projects plus the note that pagination is limited in unspecified
mode.
-/
theorem listProjectsFromBothOwnerTypes_failure_absorption :
    (∀ owner u o, (∃ e, listProjectsFromBothOwnerTypes owner u o = .error e) ↔
        (scopeOK u = false ∧ scopeOK o = false))
    ∧ (∀ owner u o, scopeOK u = false → scopeOK o = false →
        listProjectsFromBothOwnerTypes owner u o = .error (bothScopesFailureMessage owner))
    ∧ (∀ owner u o, scopeOK u = true → scopeOK o = false →
        listProjectsFromBothOwnerTypes owner u o =
          .ok ((scopeProjects u).map (fun p => { p with ownerType := "user" }),
            bothScopesNote))
    ∧ (∀ owner u o, scopeOK u = false → scopeOK o = true →
        listProjectsFromBothOwnerTypes owner u o =
          .ok ((scopeProjects o).map (fun p => { p with ownerType := "org" }),
            bothScopesNote))
    ∧ (∀ owner, bothScopesFailureMessage owner =
        "failed to list projects for owner \x27" ++ owner ++
          "\x27: not found as user or organization") := by
  refine ⟨?_, ?_, ?_, ?_, fun owner => rfl⟩
  · intro owner u o
    by_cases hu : scopeOK u <;> by_cases ho : scopeOK o <;>
      simp [listProjectsFromBothOwnerTypes, hu, ho]
  · intro owner u o hu ho
    simp [listProjectsFromBothOwnerTypes, hu, ho]
  · intro owner u o hu ho
    simp [listProjectsFromBothOwnerTypes, hu, ho]
  · intro owner u o hu ho
    simp [listProjectsFromBothOwnerTypes, hu, ho]

theorem listProjectsFromBothOwnerTypes_failure_absorption_witness :
    listProjectsFromBothOwnerTypes "octo" ⟨some "dial tcp: i/o timeout", none⟩
        ⟨none, some (200, [⟨"Roadmap", ""⟩])⟩ =
      .ok ([⟨"Roadmap", "org"⟩], bothScopesNote) :=
  listProjectsFromBothOwnerTypes_failure_absorption.2.2.2.1 "octo"
    ⟨some "dial tcp: i/o timeout", none⟩ ⟨none, some (200, [⟨"Roadmap", ""⟩])⟩
    (by decide) (by decide)

/--
C6: with unspecified owner kind and both scopes succeeding, the result is
the union of both calls' project lists — user-scope results first, each
tagged "user", then org-scope results, each tagged "org" — so its
cardinality is the sum of the two scopes' item counts and every element
carries the tag of the scope it came from.
-/
theorem listProjectsFromBothOwnerTypes_union_tagging (owner : String)
    (u o : ScopeListOutcome) (hu : scopeOK u = true) (ho : scopeOK o = true) :
    listProjectsFromBothOwnerTypes owner u o =
      .ok ((scopeProjects u).map (fun p => { p with ownerType := "user" })
            ++ (scopeProjects o).map (fun p => { p with ownerType := "org" }),
        bothScopesNote)
    ∧ ((scopeProjects u).map (fun p : MinimalProject => { p with ownerType := "user" })
        ++ (scopeProjects o).map (fun p : MinimalProject => { p with ownerType := "org" })).length =
        (scopeProjects u).length + (scopeProjects o).length
    ∧ (∀ p ∈ (scopeProjects u).map (fun p : MinimalProject => { p with ownerType := "user" }),
        p.ownerType = "user")
    ∧ (∀ p ∈ (scopeProjects o).map (fun p : MinimalProject => { p with ownerType := "org" }),
        p.ownerType = "org") := by
  refine ⟨by simp [listProjectsFromBothOwnerTypes, hu, ho], by simp, ?_, ?_⟩
  · intro p hp
    simp only [List.mem_map] at hp
    obtain ⟨q, hq, rfl⟩ := hp
    rfl
  · intro p hp
    simp only [List.mem_map] at hp
    obtain ⟨q, hq, rfl⟩ := hp
    rfl

theorem listProjectsFromBothOwnerTypes_union_tagging_witness :
    listProjectsFromBothOwnerTypes "octo"
        ⟨none, some (200, [⟨"A", ""⟩, ⟨"B", ""⟩])⟩ ⟨none, some (200, [⟨"C", ""⟩])⟩ =
      .ok ([⟨"A", "user"⟩, ⟨"B", "user"⟩, ⟨"C", "org"⟩], bothScopesNote) :=
  (listProjectsFromBothOwnerTypes_union_tagging "octo"
    ⟨none, some (200, [⟨"A", ""⟩, ⟨"B", ""⟩])⟩ ⟨none, some (200, [⟨"C", ""⟩])⟩
    (by decide) (by decide)).1

/--
C8: buildPageInfo sets hasNextPage exactly when the response's forward
cursor is non-empty and hasPreviousPage exactly when the backward cursor is
non-empty; the serialized page info carries a cursor key exactly when that
cursor is non-empty (omitempty), so empty upstream cursors yield
hasNextPage = false, hasPreviousPage = false, and both cursor fields
omitted from the output.
-/
theorem buildPageInfo_cursor_presence :
    (∀ resp : GHResponseCursors,
        ((buildPageInfo resp).hasNextPage = true ↔ resp.after ≠ "")
        ∧ ((buildPageInfo resp).hasPreviousPage = true ↔ resp.before ≠ "")
        ∧ (("nextCursor" ∈ (serializePageInfo (buildPageInfo resp)).map Prod.fst) ↔
            resp.after ≠ "")
        ∧ (("prevCursor" ∈ (serializePageInfo (buildPageInfo resp)).map Prod.fst) ↔
            resp.before ≠ ""))
    ∧ buildPageInfo ⟨"", ""⟩ = ⟨false, false, "", ""⟩
    ∧ serializePageInfo (buildPageInfo ⟨"", ""⟩) =
        [("hasNextPage", "false"), ("hasPreviousPage", "false")] := by
  refine ⟨?_, by decide, by decide⟩
  intro resp
  by_cases ha : resp.after = "" <;> by_cases hb : resp.before = "" <;>
    simp [buildPageInfo, serializePageInfo, ha, hb]

/--
C9: the update payload built from the updated_field argument always holds
exactly one field entry; a present null value is accepted and carried into
the payload as the field's (cleared) value — not a no-op and not an error;
and payload construction fails exactly when the argument is not an object,
the id key is missing or not an integer (an integer being a value that
round-trips through int64: no fractional part and within the int64 range,
so e.g. 10^19 and 2^63 are rejected while -2^63 is accepted), or the value
key is absent.
-/
theorem buildUpdateProjectItem_single_field_null_clear :
    (∀ arg payload, updateFieldPayload arg = .ok payload → payload.fields.length = 1)
    ∧ updateFieldPayload (.objArg [("id", .num 123), ("value", .goNull)]) =
        .ok ⟨[⟨123, .goNull⟩]⟩
    ∧ (∀ fs (fid : Rat) v, List.lookup "id" fs = some (.num fid) → fid.den = 1 →
        int64MinValue ≤ fid.num → fid.num ≤ int64MaxValue →
        List.lookup "value" fs = some v →
        buildUpdateProjectItem fs = .ok ⟨[⟨fid.num, v⟩]⟩)
    ∧ validateAndConvertToInt64 (.num 10000000000000000000) =
        .error ("value must be a valid integer (got " ++
          toString (10000000000000000000 : Rat) ++ ")")
    ∧ validateAndConvertToInt64 (.num 9223372036854775808) =
        .error ("value must be a valid integer (got " ++
          toString (9223372036854775808 : Rat) ++ ")")
    ∧ validateAndConvertToInt64 (.num (-9223372036854775808)) =
        .ok (-9223372036854775808)
    ∧ (∀ arg, (∃ e, updateFieldPayload arg = .error e) ↔
        (arg = .nonObject
          ∨ ∃ fs, arg = .objArg fs ∧
              (List.lookup "id" fs = none
                ∨ (∃ idv e2, List.lookup "id" fs = some idv ∧
                    validateAndConvertToInt64 idv = .error e2)
                ∨ List.lookup "value" fs = none))) := by
  refine ⟨?_, by decide, ?_, by decide, by decide, by decide, ?_⟩
  · intro arg payload h
    cases arg with
    | nonObject => exact Except.noConfusion h
    | objArg fs =>
      simp only [updateFieldPayload, buildUpdateProjectItem] at h
      split at h
      · exact Except.noConfusion h
      · split at h
        · exact Except.noConfusion h
        · split at h
          · exact Except.noConfusion h
          · injection h with h'
            rw [← h']
            rfl
  · intro fs fid v hid hden hmin hmax hval
    simp [buildUpdateProjectItem, hid, validateAndConvertToInt64, hden, hmin, hmax, hval]
  · intro arg
    constructor
    · rintro ⟨e, he⟩
      cases arg with
      | nonObject => exact Or.inl rfl
      | objArg fs =>
        refine Or.inr ⟨fs, rfl, ?_⟩
        simp only [updateFieldPayload, buildUpdateProjectItem] at he
        split at he
        · rename_i hid
          exact Or.inl hid
        · rename_i idv hid
          split at he
          · rename_i e2 hv
            exact Or.inr (Or.inl ⟨idv, e2, hid, hv⟩)
          · rename_i fid hv
            split at he
            · rename_i hval
              exact Or.inr (Or.inr hval)
            · exact Except.noConfusion he
    · intro h
      rcases h with h | ⟨fs, rfl, hcase⟩
      · subst h
        exact ⟨"updated_field must be an object", rfl⟩
      · rcases hcase with hid | ⟨idv, e2, hid, hv⟩ | hval
        · exact ⟨"updated_field.id is required",
            by simp [updateFieldPayload, buildUpdateProjectItem, hid]⟩
        · exact ⟨"updated_field.id: " ++ e2,
            by simp [updateFieldPayload, buildUpdateProjectItem, hid, hv]⟩
        · cases hid : List.lookup "id" fs with
          | none => exact ⟨"updated_field.id is required",
              by simp [updateFieldPayload, buildUpdateProjectItem, hid]⟩
          | some idv =>
            cases hv : validateAndConvertToInt64 idv with
            | error e2 => exact ⟨"updated_field.id: " ++ e2,
                by simp [updateFieldPayload, buildUpdateProjectItem, hid, hv]⟩
            | ok fid => exact ⟨"updated_field.value is required",
                by simp [updateFieldPayload, buildUpdateProjectItem, hid, hv, hval]⟩

theorem buildUpdateProjectItem_single_field_null_clear_witness :
    (UpdateProjectItemOptions.mk [⟨123, GoValue.goNull⟩]).fields.length = 1 :=
  buildUpdateProjectItem_single_field_null_clear.1
    (.objArg [("id", .num 123), ("value", .goNull)]) ⟨[⟨123, .goNull⟩]⟩ (by decide)

end GhProjects
